import Mathlib

/-!
# Verification of the devolve-ui core renderer and hook store

Shallow embedding of the reconciliation / render-cache engine of devolve-ui:

* `src/renderer/common.ts` — `RendererImpl` (render cache, invalidation walk,
  frame scheduler, `renderNode` / `renderNodeImpl`);
* `src/core/hooks/intrinsic/state-dynamic.ts` — `useState`, `useStateFast`,
  `useDynamic`, `_useDynamicState`;
* `src/core/react-adapter.ts` — `BrowserRendererImpl.renderDivChildren`.

Types that live in modules absent from the source snapshot (`core/vdom`,
`core/component`) are modelled from the specification and marked as such in
their doc comments.  JS numbers on the z axis are modelled as `Int`, sizes in
the browser renderer as `Rat`; JS `undefined` and reference identity of stored
hook values are modelled by the `JsVal` type.
-/

/-- Sublayout direction (`core/vdom/bounds`, re-exported by the JSX intrinsics
in the source snapshot: `hbox`/`vbox`/`zbox` set `horizontal`/`vertical`/
`overlap`). -/
inductive Direction where
  | horizontal
  | vertical
  | overlap
deriving DecidableEq, Repr

/-- Text wrap mode, `'word' | 'char' | 'clip'` (`renderer/common.ts:128`). -/
inductive WrapMode where
  | word
  | char
  | clip
deriving DecidableEq, Repr

/-- Opaque LCH color value (`core/vdom/color`, passed through unchanged by the
core renderer). -/
structure LCHColor where
  lightness : Int
  chroma : Int
  hue : Int
deriving DecidableEq, Repr

/-- Modelled from the spec: the sublayout descriptor of a `ParentBounds`
("direction: none/horizontal/vertical/overlap, gap"); `core/vdom` is absent
from the source snapshot.  The custom offset function is not structurally
comparable and is not consulted by any code under verification, so it is
omitted. -/
structure SubLayout where
  direction : Option Direction := none
  gap : Option Int := none
deriving DecidableEq, Repr

/-- Modelled from the spec: the absolute bounding box
"(left, top, width, height, z)" produced by a bounds resolver (`core/vdom` is
absent from the source snapshot). -/
structure BoundingBox where
  left : Int
  top : Int
  width : Int
  height : Int
  z : Int
deriving DecidableEq, Repr

/-- Modelled from the spec: "the context threaded top-down during bounds
resolution: an absolute bounding box ... plus a sublayout descriptor"
(`core/vdom` is absent from the source snapshot). -/
structure ParentBounds where
  boundingBox : BoundingBox
  sublayout : SubLayout
deriving DecidableEq, Repr

/-- Modelled from the spec: `ParentBounds.equals` (`core/vdom` is absent from
the source snapshot): "Two ParentBounds are equal iff the absolute box and
sublayout are structurally equal; equality is the cache validity test." -/
def ParentBounds.equals (a b : ParentBounds) : Bool :=
  decide (a.boundingBox = b.boundingBox) && decide (a.sublayout = b.sublayout)

theorem ParentBounds.equals_iff (a b : ParentBounds) :
    ParentBounds.equals a b = true ↔ a = b := by
  cases a; cases b
  simp [ParentBounds.equals, ParentBounds.mk.injEq]

/-- Node identity for the cache map (`cachedRenders : Map<VNode, ...>` is keyed
by node object identity).  A node is identified by its path to the root,
deepest index first; the root is `[]` and the parent of `i :: p` is `p`
(the root's `parent` is `'none'`). -/
abbrev NodeId := List Nat

/-- The node tree (`core/vdom/node`, shape as consumed by
`renderer/common.ts`): every node carries a `bounds` resolver (a fallible
function of the parent's `ParentBounds`), a `visible` flag
(`visible?: boolean`), and its variant payload.  Bounds resolution can fail
(e.g. a `prev`-relative expression with no previous sibling), hence the
`Except` codomain. -/
inductive VNode where
  | box (bounds : ParentBounds → Except String BoundingBox) (visible : Option Bool)
      (sublayout : Option SubLayout) (children : List VNode)
  | text (bounds : ParentBounds → Except String BoundingBox) (visible : Option Bool)
      (wrapMode : Option WrapMode) (content : String)
  | color (bounds : ParentBounds → Except String BoundingBox) (visible : Option Bool)
      (color : LCHColor)
  | source (bounds : ParentBounds → Except String BoundingBox) (visible : Option Bool)
      (src : String)

/-- `node.visible` (`visible?: boolean`: `none` models `undefined`). -/
def VNode.visible : VNode → Option Bool
  | .box _ v _ _ => v
  | .text _ v _ _ => v
  | .color _ v _ => v
  | .source _ v _ => v

/-- `node.bounds`, the bounds resolver attached to every node. -/
def VNode.boundsFn : VNode → (ParentBounds → Except String BoundingBox)
  | .box b _ _ _ => b
  | .text b _ _ _ => b
  | .color b _ _ => b
  | .source b _ _ => b

/-- A backend draw-primitive handle: records which draw-contract call
(`renderText` / `renderSolidColor` / `renderImage` / `renderVectorImage`,
`renderer/common.ts:128-131`) produced it, at which box. -/
inductive VRenderPrim where
  | text (bounds : BoundingBox) (wrapMode : Option WrapMode) (content : String)
  | solidColor (bounds : BoundingBox) (color : LCHColor)
  | image (bounds : BoundingBox) (src : String)
  | vectorImage (bounds : BoundingBox) (src : String)
deriving DecidableEq, Repr

/-- The runtime view of a backend primitive: the handle plus the numeric
properties set on the object (a JS object accepts dynamic numeric keys; the
box-merge loop of `renderNodeImpl` both tests `zPosition in render` and writes
`render[zPosition] = render` on such an object). -/
structure VRenderObj where
  prim : VRenderPrim
  props : List Int := []
deriving DecidableEq, Repr

/-- A draw batch: `VRenderBatch<VRender>`, a record keyed by integer
z-position (`renderer/common.ts:38-40`). -/
abbrev Batch := List (Int × VRenderObj)

/-- The render cache `cachedRenders : Map<VNode, VRenderBatch & {parentBounds}>`
(`renderer/common.ts:50`), keyed by node identity. -/
abbrev Cache := NodeId → Option (Batch × ParentBounds)

def cacheErase (cache : Cache) (id : NodeId) : Cache :=
  fun i => if i = id then none else cache i

def cacheSet (cache : Cache) (id : NodeId) (e : Batch × ParentBounds) : Cache :=
  fun i => if i = id then some e else cache i

/-- Modelled from the spec: `Bounds.DELTA_Z` (`core/vdom` is absent from the
source snapshot); "z-position ties are broken by a small deterministic delta",
modelled as the unit step on the integer z axis. -/
def DELTA_Z : Int := 1

/-- The loop `while (zPosition in render) { zPosition += Bounds.DELTA_Z }`
(`renderer/common.ts:177-179`), with explicit fuel; `props` is the set of
numeric keys of the object the membership test runs against. -/
def bumpZ (props : List Int) : Nat → Int → Int
  | 0, z => z
  | fuel + 1, z => if z ∈ props then bumpZ props fuel (z + DELTA_Z) else z

/-- The merge of child renders in the `box` case of `renderNodeImpl`
(`renderer/common.ts:173-183`).  The outer record is
`const render: Record<number, VRender> = {}` (line 173); the loop binding in
`for (const [zString, render] of Object.entries(child))` (line 175) is also
named `render` and shadows it inside the loop body, so the membership test
(line 177) and the write `render[zPosition] = render` (line 180) both act on
the child's primitive object, never on the record.  The accumulator pairs the
record with the child entries as mutated by those writes; the function returns
the record (line 183, `return render`, where the outer binding is back in
scope). -/
def mergeChildRenders (children : List Batch) : Batch :=
  (children.foldl (fun acc child =>
    child.foldl (fun (acc : Batch × List (Int × VRenderObj)) entry =>
      let record := acc.1
      let render := entry.2
      let zPosition := entry.1
      let zPosition := bumpZ render.props (render.props.length + 1) zPosition
      let render := { render with props := zPosition :: render.props }
      (record, acc.2 ++ [(entry.1, render)])) acc) (([] : Batch), [])).1

/-- `String.prototype.split('.')` on the character list of the path: split at
every `'.'`, keeping empty segments, never returning an empty list (JS
`split` on a string without the separator returns the whole string). -/
def splitOnDotAux : List Char → List Char → List (List Char)
  | [], acc => [acc.reverse]
  | c :: cs, acc =>
    if c = '.' then acc.reverse :: splitOnDotAux cs [] else splitOnDotAux cs (c :: acc)

/-- `node.src.split('.').pop()` (`renderer/common.ts:190`); `pop` takes the
last segment, and the split result is never empty, so the default list is
never consulted. -/
def extension (src : String) : String :=
  ⟨(splitOnDotAux src.data []).getLastD []⟩

mutual

/-- `RendererImpl.renderNode` (`renderer/common.ts:133-146`): serve the cache
entry when its `ParentBounds` equals the supplied one, otherwise evict it,
recompute the batch via `renderNodeImpl`, and store the result together with
the new `ParentBounds`. -/
def renderNode (pb : ParentBounds) (path : NodeId) (node : VNode) (cache : Cache) :
    Except String (Batch × Cache) :=
  match cache path with
  | some cached =>
    if ParentBounds.equals cached.2 pb then
      .ok (cached.1, cache)
    else
      match renderNodeImpl pb path node (cacheErase cache path) with
      | .ok rc => .ok (rc.1, cacheSet rc.2 path (rc.1, pb))
      | .error e => .error e
  | none =>
    match renderNodeImpl pb path node cache with
    | .ok rc => .ok (rc.1, cacheSet rc.2 path (rc.1, pb))
    | .error e => .error e
termination_by (sizeOf node, 1)
decreasing_by
  all_goals exact Prod.Lex.right _ (by omega)

/-- `RendererImpl.renderNodeImpl` (`renderer/common.ts:155-204`): invisible
nodes yield the empty batch before bounds resolution; otherwise resolve the
node's bounds against the parent's `ParentBounds` and dispatch on the node
type; an unsupported source extension is a hard error. -/
def renderNodeImpl (pb : ParentBounds) (path : NodeId) (node : VNode) (cache : Cache) :
    Except String (Batch × Cache) :=
  if node.visible = some false then
    .ok ([], cache)
  else
    match node.boundsFn pb with
    | .error e => .error e
    | .ok bounds =>
      match node with
      | .box _ _ sublayout children =>
        let bounds2 : ParentBounds := { boundingBox := bounds, sublayout := sublayout.getD {} }
        match renderChildren bounds2 path 0 children cache with
        | .ok rc => .ok (mergeChildRenders rc.1, rc.2)
        | .error e => .error e
      | .text _ _ wrapMode content =>
        .ok ([(bounds.z, { prim := .text bounds wrapMode content })], cache)
      | .color _ _ c =>
        .ok ([(bounds.z, { prim := .solidColor bounds c })], cache)
      | .source _ _ src =>
        let ext := extension src
        if ext = "png" ∨ ext = "jpg" ∨ ext = "jpeg" ∨ ext = "gif" then
          .ok ([(bounds.z, { prim := .image bounds src })], cache)
        else if ext = "svg" then
          .ok ([(bounds.z, { prim := .vectorImage bounds src })], cache)
        else
          .error ("Unsupported source extension: " ++ ext)
termination_by (sizeOf node, 0)
decreasing_by
  all_goals simp_wf
  all_goals apply Prod.Lex.left
  all_goals simp_arith

/-- `node.children.map(child => this.renderNode(bounds2, child))`
(`renderer/common.ts:170`), threading the cache; the `i`-th child of the node
at `path` has identity `i :: path`. -/
def renderChildren (pb : ParentBounds) (path : NodeId) (i : Nat) (children : List VNode)
    (cache : Cache) : Except String (List Batch × Cache) :=
  match children with
  | [] => .ok ([], cache)
  | c :: rest =>
    match renderNode pb (i :: path) c cache with
    | .error e => .error e
    | .ok rc =>
      match renderChildren pb path (i + 1) rest rc.2 with
      | .error e => .error e
      | .ok rsc => .ok (rc.1 :: rsc.1, rsc.2)
termination_by (sizeOf children, 2)
decreasing_by
  all_goals simp_wf
  all_goals apply Prod.Lex.left
  all_goals simp_arith

end

/-- The mutable per-renderer state of `RendererImpl`
(`renderer/common.ts:46-53`) together with the backend-visible output: the
render cache, the dirty flag `needsRerender`, the visibility flag, the root
node and the root bounding box (`getRootBoundingBox`).  `display` is the
backend's current visible output (`clear()` empties it, `writeRender`
replaces it) and `passes` counts executed `writeRender` calls, i.e. completed
render passes. -/
structure RendererState where
  cachedRenders : Cache
  needsRerender : Bool
  isVisible : Bool
  root : VNode
  rootBoundingBox : BoundingBox
  display : Option Batch
  passes : Nat

/-- The upward cache-eviction walk of `RendererImpl.setNeedsRerender`
(`renderer/common.ts:100-104`): delete the node's entry, move to
`node.parent`, and stop after the root (whose parent is `'none'`, i.e. the
parent of the root id `[]`). -/
def evictUpward (cache : Cache) : NodeId → Cache
  | [] => cacheErase cache []
  | i :: p => evictUpward (cacheErase cache (i :: p)) p

/-- `RendererImpl.setNeedsRerender` (`renderer/common.ts:99-106`): walk from
the changed node up to the root deleting cache entries, then set the dirty
flag. -/
def setNeedsRerender (s : RendererState) (diff : NodeId) : RendererState :=
  { s with cachedRenders := evictUpward s.cachedRenders diff, needsRerender := true }

/-- `getRootParentBounds` (`renderer/common.ts:148-153`): the root bounding
box with an empty sublayout. -/
def getRootParentBounds (s : RendererState) : ParentBounds :=
  { boundingBox := s.rootBoundingBox, sublayout := {} }

/-- `RendererImpl.rerender` (`renderer/common.ts:115-121`): when visible,
clear the dirty flag, clear the backend output, render the root and write the
result.  Returns the state after the pass and the thrown error, if rendering
threw (in which case the flag is already cleared and the output already
cleared, but no pass completed). -/
def rerender (s : RendererState) : RendererState × Option String :=
  if s.isVisible then
    let s1 := { s with needsRerender := false, display := none }
    match renderNode (getRootParentBounds s1) [] s1.root s1.cachedRenders with
    | .ok rc =>
      ({ s1 with cachedRenders := rc.2, display := some rc.1, passes := s1.passes + 1 }, none)
    | .error e => (s1, some e)
  else (s, none)

/-- One tick of the frame timer installed by `RendererImpl.start`
(`renderer/common.ts:72-76`): `if (this.needsRerender) { this.rerender() }`. -/
def tick (s : RendererState) : RendererState × Option String :=
  if s.needsRerender then rerender s else (s, none)

/-- JS values stored in hook slots: `undefined` or an object/primitive
identified by an id; equality of ids models JS `===` (reference equality for
objects). -/
inductive JsVal where
  | undefined
  | val (id : Nat)
deriving DecidableEq, Repr

/-- The hook-relevant fields of a `VComponent` (`core/component` is absent
from the source snapshot; the fields are exactly those consumed by
`state-dynamic.ts`): the ordered hook-slot list `state`, the slot cursor
`nextStateIndex`, and the construction-pass flag `isBeingCreated`. -/
structure HookComponent where
  state : List JsVal
  nextStateIndex : Nat
  isBeingCreated : Bool
deriving DecidableEq, Repr

/-- `_useDynamicState`, slot-allocation part
(`core/hooks/intrinsic/state-dynamic.ts:57-65`): consume the next slot index;
during the construction pass check the slot-count sanity invariant and push
the initial value.  Returns the consumed index and the updated component; the
returned getter and setter are `dynamicStateGet index` and
`dynamicStateSet doUpdate index` below. -/
def _useDynamicState (initialState : JsVal) (doUpdate : Bool) (c : HookComponent) :
    Except String (Nat × HookComponent) :=
  let _ := doUpdate
  let index := c.nextStateIndex
  let c := { c with nextStateIndex := index + 1 }
  if c.isBeingCreated then
    if c.state.length ≠ index then
      .error ("sanity check failed: state length (" ++ toString c.state.length ++
        ") !== index (" ++ toString index ++ ")")
    else
      .ok (index, { c with state := c.state ++ [initialState] })
  else
    .ok (index, c)

/-- The getter returned by `_useDynamicState`
(`state-dynamic.ts:68`, `() => component.state[index]`); reading past the end
of the slot list yields `undefined`. -/
def dynamicStateGet (index : Nat) (state : List JsVal) : JsVal :=
  state.getD index .undefined

/-- The setter returned by `_useDynamicState` (`state-dynamic.ts:69-80`),
acting on the component's slot list and on the list of scheduled
`VComponent.update` calls (the re-render scheduling path; each call records
the slot index that triggered it): skip entirely when the new value is
reference-equal to the stored one, otherwise store it and, when `doUpdate`,
schedule an update. -/
def dynamicStateSet (doUpdate : Bool) (index : Nat) (newState : JsVal)
    (state : List JsVal) (updates : List Nat) : List JsVal × List Nat :=
  if state.getD index .undefined ≠ newState then
    let state := state.set index newState
    if doUpdate then (state, updates ++ [index]) else (state, updates)
  else (state, updates)

/-- `useStateFast` (`state-dynamic.ts:39-42`):
`const [get, set] = _useDynamicState(initialState, true); return [get(), set]`.
Returns the current slot value, the consumed slot index (the returned setter
is `dynamicStateSet true index`), and the updated component. -/
def useStateFast (initialState : JsVal) (c : HookComponent) :
    Except String (JsVal × Nat × HookComponent) :=
  match _useDynamicState initialState true c with
  | .ok ic => .ok (dynamicStateGet ic.1 ic.2.state, ic.1, ic.2)
  | .error e => .error e

/-- `useDynamic` (`state-dynamic.ts:51-55`):
`const [get, set] = _useDynamicState(value, false); set(value); return get`.
Returns the consumed slot index (the getter is `dynamicStateGet index`), the
component after the immediate `set(value)` call, and the update list after
that call. -/
def useDynamic (value : JsVal) (c : HookComponent) (updates : List Nat) :
    Except String (Nat × HookComponent × List Nat) :=
  match _useDynamicState value false c with
  | .error e => .error e
  | .ok ic =>
    let su := dynamicStateSet false ic.1 value ic.2.state updates
    .ok (ic.1, { ic.2 with state := su.1 }, su.2)

/-- One render pass of a component body that performs the hook calls with the
given initial values, in order, through the in-source slot logic of
`_useDynamicState`. -/
def runHookCalls (inits : List JsVal) (c : HookComponent) : Except String HookComponent :=
  match inits with
  | [] => .ok c
  | v :: rest =>
    match _useDynamicState v true c with
    | .error e => .error e
    | .ok ic => runHookCalls rest ic.2

/-- The construction pass of a component instance whose body performs the
given hook calls: a fresh component has an empty slot list, cursor `0`, and
`isBeingCreated` set (`core/component`'s constructor, shape dictated by the
fields read in `state-dynamic.ts`). -/
def constructComponent (inits : List JsVal) : Except String HookComponent :=
  runHookCalls inits { state := [], nextStateIndex := 0, isBeingCreated := true }

/-- Modelled from the spec: `VComponent.update` (`core/component` is not under
`src/`).  §4.3: "mismatched slot count between the construction pass and any
subsequent pass for the same instance is a fatal programming error (hook
called conditionally) — must be detected and surfaced, not silently
tolerated."  A subsequent pass resets the slot cursor, clears
`isBeingCreated`, re-runs the body's hook calls through the in-source slot
logic, and fails when the consumed slot count differs from the stored slot
count. -/
def updatePass (inits : List JsVal) (c : HookComponent) : Except String HookComponent :=
  match runHookCalls inits { c with nextStateIndex := 0, isBeingCreated := false } with
  | .error e => .error e
  | .ok c' =>
    if c'.nextStateIndex = c'.state.length then .ok c'
    else .error "hook slot count mismatch between construction pass and render pass"

/-- A pixi.js display object as manipulated by
`BrowserRendererImpl.renderDivChildren`: a position and (for containers) the
children added via `addChild`. -/
inductive Pixi where
  | mk (x : Rat) (y : Rat) (kids : List Pixi)

/-- `displayObject.x = ...` -/
def Pixi.setX : Pixi → Rat → Pixi
  | .mk _ y kids, x => .mk x y kids

/-- `displayObject.y = ...` -/
def Pixi.setY : Pixi → Rat → Pixi
  | .mk x _ kids, y => .mk x y kids

/-- `container.addChild(child)` -/
def Pixi.addChild : Pixi → Pixi → Pixi
  | .mk x y kids, child => .mk x y (kids ++ [child])

/-- The browser renderer's `VRender` record
(`core/react-adapter.ts`, `interface VRender`): an optional pixi display
object plus the occupied width and height. -/
structure BVRender where
  pixi : Option Pixi
  width : Rat
  height : Rat

/-- The accumulation step for the `vertical` branch of `renderDivChildren`:
advance `height` by `gap * em` between children, place the child's pixi at the
running height, and accumulate the maximal width and total height. -/
def renderDivVerticalStep (em : Rat) (gap : Option Rat)
    (acc : Rat × Rat × Bool × Pixi) (render : BVRender) : Rat × Rat × Bool × Pixi :=
  let (width, height, isFirst, container) := acc
  let height := match gap with
    | some g => if ¬ isFirst then height + g * em else height
    | none => height
  let container := match render.pixi with
    | some p => container.addChild (p.setY height)
    | none => container
  (max width render.width, height + render.height, false, container)

/-- The accumulation step for the `horizontal` branch of `renderDivChildren`:
advance `width` by `gap * (em / 2)` between children, place the child's pixi
at the running width, and accumulate the total width and maximal height. -/
def renderDivHorizontalStep (em : Rat) (gap : Option Rat)
    (acc : Rat × Rat × Bool × Pixi) (render : BVRender) : Rat × Rat × Bool × Pixi :=
  let (width, height, isFirst, container) := acc
  let width := match gap with
    | some g => if ¬ isFirst then width + g * (em / 2) else width
    | none => width
  let container := match render.pixi with
    | some p => container.addChild (p.setX width)
    | none => container
  (width + render.width, max height render.height, false, container)

/-- The accumulation step for the overlay (default) branch of
`renderDivChildren`: add every child's pixi unmoved and take the maximal
extent in both axes. -/
def renderDivOverlayStep (acc : Rat × Rat × Pixi) (render : BVRender) :
    Rat × Rat × Pixi :=
  let (width, height, container) := acc
  let container := match render.pixi with
    | some p => container.addChild p
    | none => container
  (max width render.width, max height render.height, container)

/-- `BrowserRendererImpl.renderDivChildren` (`core/react-adapter.ts:313-360`):
lay the children's renders out in a fresh pixi container according to
`renderDirection`; any direction other than `vertical` and `horizontal` takes
the overlay branch, which throws
`'Gap is not supported for overlay (default) direction'` when a `gap` was
supplied.  Rendering of each child (`this.renderNodeImpl(child)`, a method of
the same object) is passed in as `renderChild`. -/
def renderDivChildren {α : Type} (renderChild : α → BVRender) (em : Rat)
    (children : List α) (renderDirection : Option Direction) (gap : Option Rat) :
    Except String BVRender :=
  let container : Pixi := .mk 0 0 []
  match renderDirection with
  | some .vertical =>
    let r := children.foldl
      (fun acc child => renderDivVerticalStep em gap acc (renderChild child))
      (0, 0, true, container)
    .ok { pixi := some r.2.2.2, width := r.1, height := r.2.1 }
  | some .horizontal =>
    let r := children.foldl
      (fun acc child => renderDivHorizontalStep em gap acc (renderChild child))
      (0, 0, true, container)
    .ok { pixi := some r.2.2.2, width := r.1, height := r.2.1 }
  | _ =>
    if gap.isSome then
      .error "Gap is not supported for overlay (default) direction"
    else
      let r := children.foldl
        (fun acc child => renderDivOverlayStep acc (renderChild child))
        (0, 0, container)
      .ok { pixi := some r.2.2, width := r.1, height := r.2.1 }

/-! ## Concrete fixtures used by the witnesses -/

def bbA : BoundingBox := ⟨0, 0, 10, 5, 0⟩

def bbB : BoundingBox := ⟨1, 0, 10, 5, 0⟩

def pbA : ParentBounds := ⟨bbA, {}⟩

def pbB : ParentBounds := ⟨bbB, {}⟩

def textNodeA : VNode := .text (fun _ => .ok bbA) none none "hi"

def batchA : Batch := [(5, { prim := .solidColor bbA ⟨50, 10, 20⟩ })]

def cacheA : Cache := fun i => if i = ([] : NodeId) then some (batchA, pbA) else none

def emptyCache : Cache := fun _ => none

/-! ## Invalidation (C2) -/

theorem evictUpward_apply (cache : Cache) (p id : NodeId) :
    evictUpward cache p id = if id <:+ p then none else cache id := by
  induction p generalizing cache with
  | nil =>
    simp only [evictUpward, cacheErase, List.suffix_nil]
  | cons x xs ih =>
    rw [evictUpward, ih]
    by_cases hs : id <:+ xs
    · have : id <:+ x :: xs := hs.trans (List.suffix_cons x xs)
      simp [hs, this]
    · by_cases he : id = x :: xs
      · subst he
        simp [cacheErase, hs, List.suffix_refl]
      · have : ¬ id <:+ x :: xs := by
          rw [List.suffix_cons_iff]
          tauto
        simp [cacheErase, hs, he, this]

/-- C2: when a component's state changes and `setNeedsRerender` runs on its
owning node, exactly the cache entries of that node and of its strict
ancestors up to the root (the suffixes of the node's id, in the
deepest-index-first path encoding) are evicted; every other entry — sibling
subtrees and the node's own descendants — is untouched, and the dirty flag is
set. -/
theorem setNeedsRerender_evicts_exactly_ancestor_path
    (s : RendererState) (diff id : NodeId) :
    ((setNeedsRerender s diff).cachedRenders id
        = if id <:+ diff then none else s.cachedRenders id)
      ∧ (setNeedsRerender s diff).needsRerender = true := by
  exact ⟨by simp [setNeedsRerender, evictUpward_apply], rfl⟩

/-! ## Invisible nodes (C10) -/

/-- C10: a node whose `visible` flag is `false` renders to the empty draw
batch before its bounds resolver is consulted: no backend primitive is
created for it or any descendant (the cache is returned unchanged, so no
descendant was rendered), and this holds even when the node's bounds
resolver fails on every input. -/
theorem renderNodeImpl_invisible (pb : ParentBounds) (path : NodeId) (node : VNode)
    (cache : Cache) (h : node.visible = some false) :
    renderNodeImpl pb path node cache = .ok ([], cache) := by
  rw [renderNodeImpl.eq_def]
  simp [h]

def invisibleBadBounds : VNode :=
  .source (fun _ => .error "prev expression with no previous sibling") (some false) "dog.unsupported"

theorem renderNodeImpl_invisible_witness :
    renderNodeImpl pbA [] invisibleBadBounds emptyCache = .ok ([], emptyCache) :=
  renderNodeImpl_invisible pbA [] invisibleBadBounds emptyCache rfl

/-! ## Gap with overlay direction (C9) -/

/-- C9: `renderDivChildren` on the overlay direction — taken both when no
direction is given (the default) and when `overlap` is given — together with
a supplied gap throws the configuration error naming the problem; the gap is
never silently ignored. -/
theorem renderDivChildren_gap_overlay_error {α : Type} (renderChild : α → BVRender)
    (em : Rat) (children : List α) (d : Option Direction) (g : Rat)
    (hd : d = none ∨ d = some .overlap) :
    renderDivChildren renderChild em children d (some g)
      = .error "Gap is not supported for overlay (default) direction" := by
  rcases hd with h | h <;> subst h <;> simp [renderDivChildren]

theorem renderDivChildren_gap_overlay_error_witness :
    renderDivChildren (fun _ : Unit => { pixi := none, width := 0, height := 0 }) 24 [()]
        none (some 1)
      = .error "Gap is not supported for overlay (default) direction" :=
  renderDivChildren_gap_overlay_error _ 24 [()] none 1 (Or.inl rfl)

/-! ## Render cache validity (C1) -/

/-- C1: for a node with a cache entry, `renderNode` serves the cached batch
exactly when the supplied `ParentBounds` is structurally equal to the one the
entry was computed under (and then leaves the cache untouched); otherwise the
entry is evicted, the batch is recomputed by `renderNodeImpl` (the backend
draw contract) on the cache with the entry erased, and the fresh batch is
stored under the new `ParentBounds` — a batch computed under a different
`ParentBounds` is never returned. -/
theorem renderNode_cache_validity (pb pb0 : ParentBounds) (path : NodeId) (node : VNode)
    (cache : Cache) (b0 : Batch) (h : cache path = some (b0, pb0)) :
    (ParentBounds.equals pb0 pb = true ↔ pb0 = pb)
      ∧ (pb0 = pb → renderNode pb path node cache = .ok (b0, cache))
      ∧ (pb0 ≠ pb →
          (∀ b c', renderNodeImpl pb path node (cacheErase cache path) = .ok (b, c') →
            renderNode pb path node cache = .ok (b, cacheSet c' path (b, pb))
              ∧ cacheSet c' path (b, pb) path = some (b, pb))
          ∧ (∀ e, renderNodeImpl pb path node (cacheErase cache path) = .error e →
              renderNode pb path node cache = .error e)) := by
  refine ⟨ParentBounds.equals_iff pb0 pb, ?_, ?_⟩
  · intro he
    subst he
    rw [renderNode.eq_def, h]
    simp [(ParentBounds.equals_iff pb0 pb0).mpr rfl]
  · intro hne
    have heq : ParentBounds.equals pb0 pb = false := by
      rcases hb : ParentBounds.equals pb0 pb with _ | _
      · rfl
      · exact absurd ((ParentBounds.equals_iff pb0 pb).mp hb) hne
    constructor
    · intro b c' himpl
      rw [renderNode.eq_def, h]
      simp [heq, himpl, cacheSet]
    · intro e himpl
      rw [renderNode.eq_def, h]
      simp [heq, himpl]

theorem renderNode_cache_validity_witness :
    (renderNode pbA [] textNodeA cacheA = .ok (batchA, cacheA))
      ∧ (renderNode pbB [] textNodeA cacheA
          = .ok ([(bbA.z, { prim := .text bbA none "hi" })],
              cacheSet (cacheErase cacheA []) []
                ([(bbA.z, { prim := .text bbA none "hi" })], pbB))) := by
  constructor
  · exact (renderNode_cache_validity pbA pbA [] textNodeA cacheA batchA rfl).2.1 rfl
  · have himpl : renderNodeImpl pbB [] textNodeA (cacheErase cacheA [])
        = .ok ([(bbA.z, { prim := .text bbA none "hi" })], cacheErase cacheA []) := by
      rw [renderNodeImpl.eq_def]
      simp [textNodeA, VNode.visible, VNode.boundsFn]
    exact ((renderNode_cache_validity pbB pbA [] textNodeA cacheA batchA rfl).2.2
      (by decide)).1 _ _ himpl |>.1

/-! ## Box merge (C3): the merge loop drops every child entry -/

/-- The merge record returned by `mergeChildRenders` is the untouched empty
record: the loop binding `render` shadows it, so the write
`render[zPosition] = render` lands on the child primitive object and nothing
is ever added to the record. -/
theorem mergeChildRenders_eq_empty (children : List Batch) :
    mergeChildRenders children = [] := by
  unfold mergeChildRenders
  suffices h : ∀ (acc : Batch × List (Int × VRenderObj)),
      (children.foldl (fun acc child =>
        child.foldl (fun (acc : Batch × List (Int × VRenderObj)) entry =>
          let record := acc.1
          let render := entry.2
          let zPosition := entry.1
          let zPosition := bumpZ render.props (render.props.length + 1) zPosition
          let render := { render with props := zPosition :: render.props }
          (record, acc.2 ++ [(entry.1, render)])) acc) acc).1 = acc.1 by
    exact h ([], [])
  induction children with
  | nil => intro acc; rfl
  | cons child rest ih =>
    intro acc
    rw [List.foldl_cons, ih]
    clear ih
    induction child generalizing acc with
    | nil => rfl
    | cons e es ihe => rw [List.foldl_cons]; exact ihe _

def boxTwoKidsAtZ0 : VNode :=
  .box (fun _ => .ok bbA) none (some { direction := some .overlap })
    [.text (fun _ => .ok bbA) none none "left",
     .text (fun _ => .ok bbA) none none "right"]

/-- C3 (code bug, `renderer/common.ts:173-183`): every `Box` node renders to
the *empty* merged batch, so two children whose batches both target z = 0 —
e.g. `boxTwoKidsAtZ0`, whose concrete merge is evaluated in the second
conjunct — end up with neither primitive in the result, let alone at distinct
delta-separated z positions.  The loop binding `render` of
`for (const [zString, render] of Object.entries(child))` shadows the merge
record `const render = {}`, so the write `render[zPosition] = render` mutates
the child primitive object and the record is returned empty. -/
theorem box_merge_drops_children (pb : ParentBounds) (path : NodeId)
    (bf : ParentBounds → Except String BoundingBox) (vis : Option Bool)
    (sub : Option SubLayout) (children : List VNode) (cache : Cache)
    (b : Batch) (c' : Cache)
    (h : renderNodeImpl pb path (.box bf vis sub children) cache = .ok (b, c')) :
    b = []
      ∧ mergeChildRenders
          [[(0, { prim := .text bbA none "left" })], [(0, { prim := .text bbA none "right" })]]
        = ([] : Batch) := by
  refine ⟨?_, mergeChildRenders_eq_empty _⟩
  rw [renderNodeImpl.eq_def] at h
  by_cases hv : vis = some false
  · simp [VNode.visible, hv] at h
    exact h.1
  · simp only [VNode.visible, hv, if_false, ite_false, eq_self_iff_true] at h
    split at h
    · exact absurd h (by simp)
    · split at h
      · simp only [Except.ok.injEq, Prod.mk.injEq] at h
        rw [← h.1, mergeChildRenders_eq_empty]
      · exact absurd h (by simp)

theorem box_merge_drops_children_witness :
    (renderNodeImpl pbA [] (.box (fun _ => .ok bbA) none none []) emptyCache
        = .ok ([], emptyCache))
      ∧ (([] : Batch) = []
          ∧ mergeChildRenders
              [[(0, { prim := .text bbA none "left" })], [(0, { prim := .text bbA none "right" })]]
            = ([] : Batch)) := by
  have hzero : renderNodeImpl pbA [] (.box (fun _ => .ok bbA) none none []) emptyCache
      = .ok ([], emptyCache) := by
    rw [renderNodeImpl.eq_def]
    simp [VNode.visible, VNode.boundsFn, renderChildren, mergeChildRenders]
  exact ⟨hzero,
    box_merge_drops_children pbA [] (fun _ => .ok bbA) none none [] emptyCache [] emptyCache hzero⟩

/-! ## Source media extensions (C8) -/

/-- C8: rendering a visible `Source` node dispatches on
`node.src.split('.').pop()`: `png`/`jpg`/`jpeg`/`gif` produce exactly one
raster-image primitive at the node's resolved z, `svg` exactly one
vector-image primitive, and any other extension raises the hard error naming
it — no degraded rendering is attempted. -/
theorem renderNodeImpl_source_extension (pb : ParentBounds) (path : NodeId) (cache : Cache)
    (bf : ParentBounds → Except String BoundingBox) (vis : Option Bool) (src : String)
    (bb : BoundingBox) (hvis : vis ≠ some false) (hb : bf pb = .ok bb) :
    ((extension src = "png" ∨ extension src = "jpg" ∨ extension src = "jpeg"
        ∨ extension src = "gif") →
      renderNodeImpl pb path (.source bf vis src) cache
        = .ok ([(bb.z, { prim := .image bb src })], cache))
    ∧ (extension src = "svg" →
      renderNodeImpl pb path (.source bf vis src) cache
        = .ok ([(bb.z, { prim := .vectorImage bb src })], cache))
    ∧ (¬(extension src = "png" ∨ extension src = "jpg" ∨ extension src = "jpeg"
        ∨ extension src = "gif" ∨ extension src = "svg") →
      renderNodeImpl pb path (.source bf vis src) cache
        = .error ("Unsupported source extension: " ++ extension src)) := by
  refine ⟨?_, ?_, ?_⟩
  · intro h
    rw [renderNodeImpl.eq_def]
    simp [VNode.visible, VNode.boundsFn, hvis, hb, h]
  · intro h
    rw [renderNodeImpl.eq_def]
    simp [VNode.visible, VNode.boundsFn, hvis, hb, h]
  · intro h
    push_neg at h
    obtain ⟨h1, h2, h3, h4, h5⟩ := h
    rw [renderNodeImpl.eq_def]
    simp [VNode.visible, VNode.boundsFn, hvis, hb, h1, h2, h3, h4, h5]

theorem renderNodeImpl_source_extension_witness :
    (renderNodeImpl pbA [] (.source (fun _ => .ok bbA) none "dog.png") emptyCache
        = .ok ([(bbA.z, { prim := .image bbA "dog.png" })], emptyCache))
    ∧ (renderNodeImpl pbA [] (.source (fun _ => .ok bbA) none "dog.svg") emptyCache
        = .ok ([(bbA.z, { prim := .vectorImage bbA "dog.svg" })], emptyCache))
    ∧ (renderNodeImpl pbA [] (.source (fun _ => .ok bbA) none "dog.bmp") emptyCache
        = .error ("Unsupported source extension: " ++ extension "dog.bmp")) := by
  refine ⟨?_, ?_, ?_⟩
  · exact (renderNodeImpl_source_extension pbA [] emptyCache _ none "dog.png" bbA
      (by decide) rfl).1 (Or.inl (by decide))
  · exact (renderNodeImpl_source_extension pbA [] emptyCache _ none "dog.svg" bbA
      (by decide) rfl).2.1 (by decide)
  · exact (renderNodeImpl_source_extension pbA [] emptyCache _ none "dog.bmp" bbA
      (by decide) rfl).2.2 (by decide)

/-! ## Hook slot counting (C4) -/

theorem runHookCalls_construct (inits : List JsVal) (c : HookComponent)
    (hcr : c.isBeingCreated = true) (hlen : c.state.length = c.nextStateIndex) :
    runHookCalls inits c
      = .ok { state := c.state ++ inits,
              nextStateIndex := c.nextStateIndex + inits.length,
              isBeingCreated := true } := by
  induction inits generalizing c with
  | nil =>
    cases c
    simp_all [runHookCalls]
  | cons v rest ih =>
    rw [runHookCalls]
    unfold _useDynamicState
    simp only [hcr, hlen, if_true, ne_eq, not_true_eq_false, if_false, ite_not]
    rw [ih _ rfl (by simp [hlen])]
    have hs : (c.state ++ [v]) ++ rest = c.state ++ v :: rest := by simp
    have hn : c.nextStateIndex + 1 + rest.length = c.nextStateIndex + (v :: rest).length := by
      simp
      omega
    rw [hs, hn]

theorem runHookCalls_update (inits : List JsVal) (c : HookComponent)
    (hcr : c.isBeingCreated = false) :
    runHookCalls inits c
      = .ok { c with nextStateIndex := c.nextStateIndex + inits.length } := by
  induction inits generalizing c with
  | nil =>
    cases c
    simp_all [runHookCalls]
  | cons v rest ih =>
    rw [runHookCalls]
    unfold _useDynamicState
    simp only [hcr, if_false, Bool.false_eq_true]
    rw [ih _ (by simp [hcr])]
    cases c
    simp
    omega

/-- C4: a component constructed with `m` hook calls stores exactly `m` slots,
and any subsequent render pass of the same instance that consumes a different
number of hook slots makes `updatePass` (the spec-modelled
`VComponent.update`) surface the fatal slot-count error instead of silently
succeeding, while an equal count succeeds. -/
theorem hook_slot_count_mismatch_fatal (inits inits' : List JsVal) (c : HookComponent)
    (h : constructComponent inits = .ok c) :
    c.state.length = inits.length
    ∧ (inits'.length = inits.length → ∃ c', updatePass inits' c = .ok c')
    ∧ (inits'.length ≠ inits.length →
        updatePass inits' c
          = .error "hook slot count mismatch between construction pass and render pass") := by
  have hc : c = { state := inits, nextStateIndex := inits.length, isBeingCreated := true } := by
    rw [constructComponent,
      runHookCalls_construct inits { state := [], nextStateIndex := 0, isBeingCreated := true }
        rfl rfl] at h
    simpa using h.symm
  subst hc
  refine ⟨by simp, ?_, ?_⟩
  · intro hl
    unfold updatePass
    rw [runHookCalls_update _ _ rfl]
    simp [hl]
  · intro hl
    unfold updatePass
    rw [runHookCalls_update _ _ rfl]
    simp [hl]

theorem hook_slot_count_mismatch_fatal_witness :
    constructComponent [JsVal.val 1, JsVal.val 2]
        = .ok { state := [JsVal.val 1, JsVal.val 2], nextStateIndex := 2, isBeingCreated := true }
      ∧ updatePass [JsVal.val 1]
          { state := [JsVal.val 1, JsVal.val 2], nextStateIndex := 2, isBeingCreated := true }
        = .error "hook slot count mismatch between construction pass and render pass" := by
  refine ⟨rfl, ?_⟩
  exact (hook_slot_count_mismatch_fatal [JsVal.val 1, JsVal.val 2] [JsVal.val 1]
    { state := [JsVal.val 1, JsVal.val 2], nextStateIndex := 2, isBeingCreated := true }
    rfl).2.2 (by decide)

/-! ## `useStateFast` setter (C5) -/

theorem useStateFast_returns_current (initial : JsVal) (c : HookComponent)
    (v : JsVal) (index : Nat) (c' : HookComponent)
    (h : useStateFast initial c = .ok (v, index, c')) :
    dynamicStateGet index c'.state = v := by
  unfold useStateFast at h
  cases hu : _useDynamicState initial true c with
  | error e => rw [hu] at h; simp at h
  | ok ic =>
    rw [hu] at h
    simp only [Except.ok.injEq, Prod.mk.injEq] at h
    obtain ⟨h1, h2, h3⟩ := h
    subst h2
    subst h3
    exact h1

/-- C5: for a hook slot created by `useStateFast` (whose returned setter is
`dynamicStateSet true index`), calling the setter with the slot's current
value leaves the slot list unchanged and schedules no `VComponent.update`
call; calling it with a different (non-reference-equal) value stores the new
value in the slot and schedules exactly one update. -/
theorem useStateFast_setter_schedules_iff_changed (initial : JsVal) (c : HookComponent)
    (v w : JsVal) (index : Nat) (c' : HookComponent) (updates : List Nat)
    (h : useStateFast initial c = .ok (v, index, c')) :
    (dynamicStateSet true index v c'.state updates = (c'.state, updates))
    ∧ (w ≠ v → dynamicStateSet true index w c'.state updates
        = (c'.state.set index w, updates ++ [index])) := by
  have hv : c'.state.getD index .undefined = v := useStateFast_returns_current initial c v index c' h
  constructor
  · unfold dynamicStateSet
    rw [hv]
    simp
  · intro hw
    unfold dynamicStateSet
    rw [hv]
    simp [Ne.symm hw]

theorem useStateFast_setter_witness :
    (useStateFast (.val 5) { state := [], nextStateIndex := 0, isBeingCreated := true }
        = .ok (.val 5, 0, { state := [JsVal.val 5], nextStateIndex := 1, isBeingCreated := true }))
    ∧ (dynamicStateSet true 0 (.val 5) [JsVal.val 5] [] = ([JsVal.val 5], []))
    ∧ (dynamicStateSet true 0 (.val 6) [JsVal.val 5] [] = ([JsVal.val 6], [0])) := by
  have h := useStateFast_setter_schedules_iff_changed (.val 5)
    { state := [], nextStateIndex := 0, isBeingCreated := true } (.val 5) (.val 6) 0
    { state := [JsVal.val 5], nextStateIndex := 1, isBeingCreated := true } [] rfl
  exact ⟨rfl, h.1, h.2 (by decide)⟩

/-! ## `useDynamic` setter (C6) -/

/-- C6: the setter of a `useDynamic` slot (`dynamicStateSet false index`)
never schedules a re-render: the scheduled-update list always comes back
unchanged, while the stored value is updated exactly when the new value
differs; the immediate `set(value)` call inside `useDynamic` itself also
leaves the scheduled-update list unchanged. -/
theorem useDynamic_setter_never_schedules (index : Nat) (w : JsVal) (state : List JsVal)
    (updates : List Nat) (value : JsVal) (c : HookComponent)
    (r : Nat × HookComponent × List Nat) (h : useDynamic value c updates = .ok r) :
    ((dynamicStateSet false index w state updates).2 = updates)
    ∧ ((dynamicStateSet false index w state updates).1
        = if state.getD index .undefined ≠ w then state.set index w else state)
    ∧ r.2.2 = updates := by
  refine ⟨?_, ?_, ?_⟩
  · unfold dynamicStateSet
    split <;> simp
  · unfold dynamicStateSet
    split <;> simp_all
  · unfold useDynamic at h
    cases hu : _useDynamicState value false c with
    | error e => rw [hu] at h; simp at h
    | ok ic =>
      rw [hu] at h
      simp only [Except.ok.injEq] at h
      have h2 : (dynamicStateSet false ic.1 value ic.2.state updates).2 = updates := by
        unfold dynamicStateSet
        split <;> simp
      rw [← h]
      exact h2

theorem useDynamic_setter_witness :
    ((dynamicStateSet false 0 (.val 7) [JsVal.val 5] []).2 = ([] : List Nat))
    ∧ ((dynamicStateSet false 0 (.val 7) [JsVal.val 5] []).1 = [JsVal.val 7])
    ∧ ((useDynamic (.val 7)
          { state := [JsVal.val 5], nextStateIndex := 0, isBeingCreated := false } []).map
        (fun r => r.2.2) = .ok ([] : List Nat)) := by
  have h := useDynamic_setter_never_schedules 0 (.val 7) [JsVal.val 5] [] (.val 7)
    { state := [JsVal.val 5], nextStateIndex := 0, isBeingCreated := false }
    (0, { state := [JsVal.val 7], nextStateIndex := 1, isBeingCreated := false }, []) rfl
  refine ⟨h.1, by simpa using h.2.1, ?_⟩
  rw [show useDynamic (.val 7)
      { state := [JsVal.val 5], nextStateIndex := 0, isBeingCreated := false } []
    = .ok (0, { state := [JsVal.val 7], nextStateIndex := 1, isBeingCreated := false }, [])
    from rfl]
  rfl

/-! ## Frame scheduling (C7) -/

theorem tick_passes_le (s : RendererState) : (tick s).1.passes ≤ s.passes + 1 := by
  unfold tick rerender
  split
  · split
    · dsimp only
      split <;> simp
    · simp
  · simp

theorem foldl_setNeedsRerender_passes (ds : List NodeId) (s : RendererState) :
    (ds.foldl setNeedsRerender s).passes = s.passes := by
  induction ds generalizing s with
  | nil => rfl
  | cons d rest ih => simpa [setNeedsRerender] using ih (setNeedsRerender s d)

/-- C7: a timer tick installed by `start` is a no-op when the dirty flag is
clear; any tick completes at most one render pass; a tick on a dirty, visible
renderer clears the flag before drawing (also when rendering throws); and any
number of dirty marks between two ticks collapse into at most one render pass
at the next tick — pending renders are never queued. -/
theorem tick_renders_only_when_dirty (s : RendererState) (ds : List NodeId) :
    (s.needsRerender = false → tick s = (s, none))
    ∧ ((tick s).1.passes ≤ s.passes + 1)
    ∧ (s.needsRerender = true → s.isVisible = true → (tick s).1.needsRerender = false)
    ∧ ((tick (ds.foldl setNeedsRerender s)).1.passes ≤ s.passes + 1) := by
  refine ⟨?_, tick_passes_le s, ?_, ?_⟩
  · intro h
    simp [tick, h]
  · intro hn hv
    simp only [tick, hn, if_true]
    unfold rerender
    simp only [hv, if_true]
    split <;> rfl
  · have h := tick_passes_le (ds.foldl setNeedsRerender s)
    rwa [foldl_setNeedsRerender_passes ds s] at h

def s7a : RendererState :=
  { cachedRenders := emptyCache, needsRerender := false, isVisible := true,
    root := textNodeA, rootBoundingBox := bbA, display := none, passes := 0 }

def s7b : RendererState := { s7a with needsRerender := true }

theorem tick_renders_only_when_dirty_witness :
    s7a.needsRerender = false ∧ tick s7a = (s7a, none)
    ∧ s7b.needsRerender = true ∧ s7b.isVisible = true
    ∧ (tick s7b).1.needsRerender = false
    ∧ (tick (([[], [0]] : List NodeId).foldl setNeedsRerender s7b)).1.passes ≤ s7b.passes + 1 := by
  have h := tick_renders_only_when_dirty s7a ([] : List NodeId)
  have h2 := tick_renders_only_when_dirty s7b ([[], [0]] : List NodeId)
  exact ⟨rfl, h.1 rfl, rfl, rfl, h2.2.2.1 rfl rfl, h2.2.2.2⟩
